import Mathlib

/-!
Shallow embedding of the optimistic-mutation / cache-consistency core of the
claims-management application, together with theorems checking the
specification's claims against the code.

Sources embedded here:
  - src/lib/hooks/useClaims.ts        (create / update / delete claim mutations)
  - src/lib/hooks/useClaimsFilter.ts  (pure filter derivation)
  - src/app/api/claims/[id]/route.ts  (PATCH / DELETE routes)
  - share-link hooks and routes, PDF route, attachment upload route
    (share hooks file, share route file, pdf route file, attachments route file)
  - src/prisma/migrations/0_baseline/migration.sql (unique and cascade facts)
  - src/app/(app)/claims/[id]/page.tsx (handleReorder)
-/

namespace ClaimsApp

/-! ## Data model (from the Prisma schema and the TS interfaces) -/

/-- Claim status enum, from the Prisma `ClaimStatus` enum. -/
inductive ClaimStatus where
  | PENDING
  | UNDER_REVIEW
  | APPROVED
  | REJECTED
  | CLOSED
deriving DecidableEq, Repr

/-- Claimant sub-record `{ id, name, email }` selected by the API routes. -/
structure ClaimantInfo where
  id : String
  name : Option String
  email : String
deriving DecidableEq, Repr

/-- List-view claim record: the TS `ClaimWithCount` interface
(`Claim` plus `claimant` plus `_count.items`).  Timestamps are modelled as
naturals, the Prisma `Decimal` amount as an integer. -/
structure ClaimWithCount where
  id : String
  claimNumber : String
  description : Option String
  amount : Option Int
  status : ClaimStatus
  customer : Option String
  adjustorName : Option String
  adjustorPhone : Option String
  adjustorEmail : Option String
  claimantName : Option String
  claimantPhone : Option String
  claimantEmail : Option String
  claimantAddress : Option String
  createdAt : Nat
  updatedAt : Nat
  claimantId : String
  claimant : ClaimantInfo
  itemsCount : Nat
deriving DecidableEq, Repr

/-- Attachment record, fields from the Prisma `Attachment` table. -/
structure Attachment where
  id : String
  itemId : String
  filename : String
  url : String
  thumbnailUrl : Option String
  mimeType : String
  size : Nat
  width : Option Nat
  height : Option Nat
  publicId : String
  version : Option String
  format : Option String
  createdAt : Nat
  updatedAt : Nat
deriving DecidableEq, Repr

/-- Item record with its attachments, from the Prisma `Item` table as returned
by the detail route (`include: attachments`). -/
structure ItemWithAttachments where
  id : String
  title : String
  description : Option String
  order : Nat
  createdAt : Nat
  updatedAt : Nat
  claimId : String
  attachments : List Attachment
deriving DecidableEq, Repr

/-- Detail-view claim record: the TS `ClaimWithItems` interface. -/
structure ClaimWithItems where
  id : String
  claimNumber : String
  description : Option String
  amount : Option Int
  status : ClaimStatus
  customer : Option String
  adjustorName : Option String
  adjustorPhone : Option String
  adjustorEmail : Option String
  claimantName : Option String
  claimantPhone : Option String
  claimantEmail : Option String
  claimantAddress : Option String
  createdAt : Nat
  updatedAt : Nat
  claimantId : String
  claimant : ClaimantInfo
  items : List ItemWithAttachments
deriving DecidableEq, Repr

/-! ## Character-level string helpers

`leadsWith n h` embeds the test that list `h` starts with list `n`, and
`containsSub n h` the JavaScript `h.includes(n)` substring test. -/

/-- Boolean test that the second character list starts with the first. -/
def leadsWith : List Char → List Char → Bool
  | [], _ => true
  | _ :: _, [] => false
  | a :: as, b :: bs => a == b && leadsWith as bs

/-- Boolean substring containment, the JavaScript `hay.includes(needle)`. -/
def containsSub (needle : List Char) : List Char → Bool
  | [] => leadsWith needle []
  | c :: rest => leadsWith needle (c :: rest) || containsSub needle rest

/-- Character-wise lower-casing of a string, the JavaScript `toLowerCase`. -/
def lowerOf (s : String) : List Char := s.data.map Char.toLower

/-- Emptiness of the JavaScript `trim()`: every character is whitespace. -/
def isBlank (s : String) : Bool := s.data.all Char.isWhitespace

theorem leadsWith_iff (n h : List Char) : leadsWith n h = true ↔ n <+: h := by
  induction n generalizing h with
  | nil => simp [leadsWith]
  | cons a as ih =>
    cases h with
    | nil => simp [leadsWith]
    | cons b bs =>
      simp [leadsWith, List.cons_prefix_cons, ih, Bool.and_eq_true, beq_iff_eq]

theorem containsSub_iff (n h : List Char) : containsSub n h = true ↔ n <:+: h := by
  induction h with
  | nil => simp [containsSub, leadsWith_iff]
  | cons c rest ih =>
    simp [containsSub, Bool.or_eq_true, leadsWith_iff, ih, List.infix_cons_iff]

/-! ## Filter derivation (src/lib/hooks/useClaimsFilter.ts) -/

/-- Field list searched by the filter: claim number, claimant name, customer,
adjustor name, in the order of the source's `searchableFields`. -/
def searchableFields (c : ClaimWithCount) : List (Option String) :=
  [some c.claimNumber, c.claimantName, c.customer, c.adjustorName]

/-- Embeds `field?.toLowerCase().includes(query)`: a `null` field never
matches. -/
def fieldMatches (query : List Char) : Option String → Bool
  | none => false
  | some s => containsSub query (lowerOf s)

/-- Filter predicate of `useClaimsFilter` for a single claim: if the query is
non-blank the claim must match the text search, and if any statuses are
selected the claim's status must be among them. -/
def claimPassesFilter (searchQuery : String) (selectedStatuses : List ClaimStatus)
    (c : ClaimWithCount) : Bool :=
  (if isBlank searchQuery then true
   else (searchableFields c).any (fieldMatches (lowerOf searchQuery)))
  && (if selectedStatuses.isEmpty then true else decide (c.status ∈ selectedStatuses))

/-- The `filteredClaims` memo of `useClaimsFilter`: absent claims list yields
the empty list, otherwise the list is filtered by `claimPassesFilter`. -/
def filteredClaims (claims : Option (List ClaimWithCount)) (searchQuery : String)
    (selectedStatuses : List ClaimStatus) : List ClaimWithCount :=
  match claims with
  | none => []
  | some cs => cs.filter (claimPassesFilter searchQuery selectedStatuses)

theorem fieldMatches_iff (qc : List Char) (f : Option String) :
    fieldMatches qc f = true ↔ ∃ s, f = some s ∧ qc <:+: lowerOf s := by
  cases f with
  | none => simp [fieldMatches]
  | some s => simp [fieldMatches, containsSub_iff]

theorem statusTest_iff (sts : List ClaimStatus) (st : ClaimStatus) :
    (if sts.isEmpty then true else decide (st ∈ sts)) = true ↔
      (sts = [] ∨ st ∈ sts) := by
  cases sts with
  | nil => simp
  | cons x xs => simp [List.isEmpty]

theorem textTest_iff (q : String) (c : ClaimWithCount) :
    (if isBlank q then true
     else (searchableFields c).any (fieldMatches (lowerOf q))) = true ↔
      (isBlank q = true ∨
        lowerOf q <:+: lowerOf c.claimNumber ∨
        (∃ s, c.claimantName = some s ∧ lowerOf q <:+: lowerOf s) ∨
        (∃ s, c.customer = some s ∧ lowerOf q <:+: lowerOf s) ∨
        (∃ s, c.adjustorName = some s ∧ lowerOf q <:+: lowerOf s)) := by
  by_cases hb : isBlank q = true
  · simp [hb]
  · have hb' : isBlank q = false := by revert hb; cases isBlank q <;> simp
    simp [hb', searchableFields, List.any_cons, List.any_nil,
      fieldMatches_iff]

/-- C4: the filtered result contains exactly the claims satisfying the
conjunction of the text criterion (blank query, or some searched field
case-insensitively contains the query as a substring) and the status criterion
(empty selection, or the claim's status is selected). -/
theorem filteredClaims_mem_iff (cs : List ClaimWithCount) (q : String)
    (sts : List ClaimStatus) (c : ClaimWithCount) :
    c ∈ filteredClaims (some cs) q sts ↔
      c ∈ cs ∧
      (isBlank q = true ∨
        lowerOf q <:+: lowerOf c.claimNumber ∨
        (∃ s, c.claimantName = some s ∧ lowerOf q <:+: lowerOf s) ∨
        (∃ s, c.customer = some s ∧ lowerOf q <:+: lowerOf s) ∨
        (∃ s, c.adjustorName = some s ∧ lowerOf q <:+: lowerOf s)) ∧
      (sts = [] ∨ c.status ∈ sts) := by
  rw [filteredClaims, List.mem_filter, claimPassesFilter, Bool.and_eq_true,
    textTest_iff, statusTest_iff]

/-! ## Optimistic mutations on the claims caches (src/lib/hooks/useClaims.ts)

The react-query cache entries touched by these mutations are modelled
explicitly: the claims-list key as `Option (List ClaimWithCount)` (`none` is a
never-populated entry) and a claim-detail key as `Option ClaimWithItems`.
`setQueryData` with an updater that returns `undefined` leaves an absent entry
absent, which is reflected in the `none => none` branches below. -/

/-- Input accepted by the create-claim mutation (TS `CreateClaimInput`). -/
structure CreateClaimInput where
  claimNumber : String
  customer : Option String
  adjustorName : Option String
  adjustorPhone : Option String
  adjustorEmail : Option String
  claimantName : Option String
  claimantPhone : Option String
  claimantEmail : Option String
  claimantAddress : Option String
deriving DecidableEq, Repr

/-- JavaScript `x || null` on an optional string: `undefined` and the empty
string both collapse to `null`. -/
def orNull : Option String → Option String
  | none => none
  | some s => if s = "" then none else some s

/-- Temporary identifier used by the speculative create entry:
`temp-` followed by `Date.now()`. -/
def tempIdFor (now : Nat) : String := "temp-" ++ toString now

/-- Speculative claim inserted by `useCreateClaim.onMutate` (`tempClaim`). -/
def tempClaimFor (input : CreateClaimInput) (now : Nat) : ClaimWithCount :=
  { id := tempIdFor now
    claimNumber := input.claimNumber
    description := none
    amount := none
    status := ClaimStatus.PENDING
    customer := orNull input.customer
    adjustorName := orNull input.adjustorName
    adjustorPhone := orNull input.adjustorPhone
    adjustorEmail := orNull input.adjustorEmail
    claimantName := orNull input.claimantName
    claimantPhone := orNull input.claimantPhone
    claimantEmail := orNull input.claimantEmail
    claimantAddress := orNull input.claimantAddress
    createdAt := now
    updatedAt := now
    claimantId := "temp"
    claimant := { id := "temp", name := some "Loading...", email := "" }
    itemsCount := 0 }

/-- Context returned by `useCreateClaim.onMutate`. -/
structure CreateCtx where
  previousClaims : Option (List ClaimWithCount)
  tempClaim : ClaimWithCount
deriving DecidableEq, Repr

/-- `useCreateClaim.onMutate`: snapshot the list cache and prepend the
speculative temporary claim (creating the entry when it was absent, because
the updater returns an array). -/
def createOnMutate (input : CreateClaimInput) (now : Nat)
    (cache : Option (List ClaimWithCount)) :
    CreateCtx × Option (List ClaimWithCount) :=
  (⟨cache, tempClaimFor input now⟩,
   some (tempClaimFor input now :: cache.getD []))

/-- `useCreateClaim.onError`: restore the snapshot, but only behind the
truthiness guard `if (context?.previousClaims)` — an absent snapshot leaves
the cache as it stands. -/
def createOnError (ctx : CreateCtx) (cache : Option (List ClaimWithCount)) :
    Option (List ClaimWithCount) :=
  match ctx.previousClaims with
  | some prev => some prev
  | none => cache

/-- `useCreateClaim.onSuccess`: replace the entry whose id equals the
temporary claim's id by the server-returned claim; an absent list becomes the
singleton of the server claim. -/
def createOnSuccess (newClaim : ClaimWithCount) (ctx : CreateCtx)
    (cache : Option (List ClaimWithCount)) : Option (List ClaimWithCount) :=
  match cache with
  | none => some [newClaim]
  | some old =>
      some (old.map fun cl => if cl.id = ctx.tempClaim.id then newClaim else cl)

/-- Full failed-create round trip on the list cache:
`onMutate` then `onError` with the returned context. -/
def createFailedRun (input : CreateClaimInput) (now : Nat)
    (cache : Option (List ClaimWithCount)) : Option (List ClaimWithCount) :=
  let r := createOnMutate input now cache
  createOnError r.1 r.2

/-- Full successful-create round trip on the list cache:
`onMutate` then `onSuccess` with the server-returned claim. -/
def createSuccessRun (input : CreateClaimInput) (now : Nat)
    (serverClaim : ClaimWithCount) (cache : Option (List ClaimWithCount)) :
    Option (List ClaimWithCount) :=
  let r := createOnMutate input now cache
  createOnSuccess serverClaim r.1 r.2

/-- Input accepted by the update-claim mutation (TS `UpdateClaimInput`).
Fields that TypeScript types as `string | null | undefined` are modelled as
`Option (Option String)`: the outer `none` is `undefined` (field not
provided), `some none` is the `null` sentinel, `some (some s)` a value. -/
structure UpdateClaimInput where
  id : String
  claimNumber : Option String
  customer : Option (Option String)
  status : Option ClaimStatus
  adjustorName : Option (Option String)
  adjustorPhone : Option (Option String)
  adjustorEmail : Option (Option String)
  claimantName : Option (Option String)
  claimantPhone : Option (Option String)
  claimantEmail : Option (Option String)
  claimantAddress : Option (Option String)
deriving DecidableEq, Repr

/-- JavaScript nullish coalescing `x ?? old` on a nullable optional field:
both `undefined` and `null` fall back to the cached value. -/
def nullishOpt (x : Option (Option String)) (old : Option String) :
    Option String :=
  match x with
  | some (some s) => some s
  | _ => old

/-- Speculative transform of `useUpdateClaim.onMutate` on the cached detail
object: every patched field goes through `?? old.field`. -/
def updateTransform (d : UpdateClaimInput) (old : ClaimWithItems) :
    ClaimWithItems :=
  { old with
    claimNumber := d.claimNumber.getD old.claimNumber
    customer := nullishOpt d.customer old.customer
    status := d.status.getD old.status
    adjustorName := nullishOpt d.adjustorName old.adjustorName
    adjustorPhone := nullishOpt d.adjustorPhone old.adjustorPhone
    adjustorEmail := nullishOpt d.adjustorEmail old.adjustorEmail
    claimantName := nullishOpt d.claimantName old.claimantName
    claimantPhone := nullishOpt d.claimantPhone old.claimantPhone
    claimantEmail := nullishOpt d.claimantEmail old.claimantEmail
    claimantAddress := nullishOpt d.claimantAddress old.claimantAddress }

/-- `useUpdateClaim.onMutate` on the detail cache key: snapshot, then apply
the speculative transform (`if (!old) return old` keeps an absent entry
absent). -/
def updateOnMutate (d : UpdateClaimInput) (cache : Option ClaimWithItems) :
    Option ClaimWithItems × Option ClaimWithItems :=
  (cache,
   match cache with
   | none => none
   | some old => some (updateTransform d old))

/-- `useUpdateClaim.onError`: restore the snapshot behind the truthiness
guard `if (context?.previousClaim)`. -/
def updateOnError (prev : Option ClaimWithItems) (cache : Option ClaimWithItems) :
    Option ClaimWithItems :=
  match prev with
  | some p => some p
  | none => cache

/-- Full failed-update round trip on the detail cache. -/
def updateFailedRun (d : UpdateClaimInput) (cache : Option ClaimWithItems) :
    Option ClaimWithItems :=
  let r := updateOnMutate d cache
  updateOnError r.1 r.2

/-- Context returned by `useDeleteClaim.onMutate`. -/
structure DeleteCtx where
  previousClaims : Option (List ClaimWithCount)
  previousClaim : Option ClaimWithItems
deriving DecidableEq, Repr

/-- `useDeleteClaim.onMutate`: snapshot both keys, filter the claim out of the
list cache, and remove the detail entry (`removeQueries`). -/
def deleteOnMutate (id : String) (listCache : Option (List ClaimWithCount))
    (detailCache : Option ClaimWithItems) :
    DeleteCtx × Option (List ClaimWithCount) × Option ClaimWithItems :=
  (⟨listCache, detailCache⟩,
   (match listCache with
    | none => none
    | some old => some (old.filter fun cl => cl.id ≠ id)),
   none)

/-- `useDeleteClaim.onError`: restore each snapshot behind its truthiness
guard. -/
def deleteOnError (ctx : DeleteCtx) (listCache : Option (List ClaimWithCount))
    (detailCache : Option ClaimWithItems) :
    Option (List ClaimWithCount) × Option ClaimWithItems :=
  ((match ctx.previousClaims with
    | some p => some p
    | none => listCache),
   (match ctx.previousClaim with
    | some p => some p
    | none => detailCache))

/-- Full failed-delete round trip on both cache keys. -/
def deleteFailedRun (id : String) (listCache : Option (List ClaimWithCount))
    (detailCache : Option ClaimWithItems) :
    Option (List ClaimWithCount) × Option ClaimWithItems :=
  let r := deleteOnMutate id listCache detailCache
  deleteOnError r.1 r.2.1 r.2.2

/-- Concrete create input used by counterexample runs. -/
def demoCreateInput : CreateClaimInput :=
  { claimNumber := "CLM-1"
    customer := some "ACME"
    adjustorName := none
    adjustorPhone := none
    adjustorEmail := none
    claimantName := none
    claimantPhone := none
    claimantEmail := none
    claimantAddress := none }

/-- C1 counterexample: a failed create whose pre-mutation snapshot was an
absent (never-populated) claims-list entry does not restore that absence —
after settlement the cache still holds the speculative temporary claim, so
rollback is not exact for every touched key. -/
theorem createRollback_absent_cex :
    (createOnMutate demoCreateInput 0 none).1.previousClaims = none ∧
    createFailedRun demoCreateInput 0 none =
      some [tempClaimFor demoCreateInput 0] := by
  exact ⟨rfl, rfl⟩

/-- C1 amended: failed update and delete mutations restore every touched key
to its snapshot exactly, and a failed create does so whenever the pre-mutation
list cache was populated; only a failed create over a never-populated list
cache deviates (it leaves the temporary entry, see the counterexample). -/
theorem rollback_exactness_amended :
    (∀ (d : UpdateClaimInput) (cache : Option ClaimWithItems),
      updateFailedRun d cache = cache) ∧
    (∀ (id : String) (listCache : Option (List ClaimWithCount))
        (detailCache : Option ClaimWithItems),
      deleteFailedRun id listCache detailCache = (listCache, detailCache)) ∧
    (∀ (input : CreateClaimInput) (now : Nat) (prev : List ClaimWithCount),
      createFailedRun input now (some prev) = some prev) := by
  refine ⟨?_, ?_, ?_⟩
  · intro d cache
    cases cache <;> rfl
  · intro id listCache detailCache
    cases listCache <;> cases detailCache <;> rfl
  · intro input now prev
    rfl

/-- Replacement of the temporary entry leaves alone every entry whose id is
not the temporary identifier. -/
theorem map_promote_fresh (s : ClaimWithCount) (tid : String)
    (l : List ClaimWithCount) (hl : ∀ cl ∈ l, cl.id ≠ tid) :
    List.map (fun cl => if cl.id = tid then s else cl) l = l := by
  have hcongr : ∀ cl ∈ l, (if cl.id = tid then s else cl) = id cl := by
    intro cl hcl
    rw [if_neg (hl cl hcl), id]
  rw [List.map_congr_left hcongr, List.map_id]

/-- C2: after a successful create, the list entry that carried the temporary
identifier is replaced by the server-returned claim; provided the temporary
identifier was fresh (no pre-existing entry used it) and the server identifier
differs from it, no entry of the settled list cache references the temporary
identifier and the server claim is present.  The create callbacks write only
the claims-list key, so no detail entry can come to reference the temporary
identifier either. -/
theorem create_identifier_promotion (input : CreateClaimInput) (now : Nat)
    (serverClaim : ClaimWithCount) (cache : Option (List ClaimWithCount))
    (hfresh : ∀ cl ∈ cache.getD [], cl.id ≠ tempIdFor now)
    (hsrv : serverClaim.id ≠ tempIdFor now) :
    createSuccessRun input now serverClaim cache =
      some (serverClaim :: cache.getD []) ∧
    ∀ cl ∈ (createSuccessRun input now serverClaim cache).getD [],
      cl.id ≠ tempIdFor now := by
  have hc : ∀ (l : List ClaimWithCount), (∀ cl ∈ l, cl.id ≠ tempIdFor now) →
      List.map (fun cl => if cl.id = tempIdFor now then serverClaim else cl) l
        = l := fun l hl => map_promote_fresh serverClaim (tempIdFor now) l hl
  have hrun : createSuccessRun input now serverClaim cache =
      some (serverClaim :: cache.getD []) := by
    cases cache with
    | none =>
        have h0 : createSuccessRun input now serverClaim none =
            some ([tempClaimFor input now].map
              fun cl => if cl.id = tempIdFor now then serverClaim else cl) := rfl
        rw [h0, List.map_cons, List.map_nil,
          if_pos (show (tempClaimFor input now).id = tempIdFor now from rfl)]
        rfl
    | some old =>
        have h0 : createSuccessRun input now serverClaim (some old) =
            some ((tempClaimFor input now :: old).map
              fun cl => if cl.id = tempIdFor now then serverClaim else cl) := rfl
        rw [h0, List.map_cons,
          if_pos (show (tempClaimFor input now).id = tempIdFor now from rfl),
          hc old (by simpa using hfresh)]
        rfl
  refine ⟨hrun, ?_⟩
  rw [hrun]
  intro cl hcl
  rcases List.mem_cons.mp (by simpa using hcl) with rfl | hmem
  · exact hsrv
  · exact hfresh cl hmem

/-- Concrete server-returned claim used by witnesses and counterexamples. -/
def demoServerClaim : ClaimWithCount :=
  { id := "clm-srv-1"
    claimNumber := "CLM-1"
    description := none
    amount := none
    status := ClaimStatus.PENDING
    customer := some "ACME"
    adjustorName := none
    adjustorPhone := none
    adjustorEmail := none
    claimantName := none
    claimantPhone := none
    claimantEmail := none
    claimantAddress := none
    createdAt := 5
    updatedAt := 5
    claimantId := "user-1"
    claimant := { id := "user-1", name := some "Ann", email := "a@b.c" }
    itemsCount := 0 }

/-- Witness for the identifier-promotion theorem at a concrete input. -/
theorem create_identifier_promotion_witness :
    createSuccessRun demoCreateInput 0 demoServerClaim none =
      some (demoServerClaim :: Option.getD none []) ∧
    ∀ cl ∈ (createSuccessRun demoCreateInput 0 demoServerClaim none).getD [],
      cl.id ≠ tempIdFor 0 :=
  create_identifier_promotion demoCreateInput 0 demoServerClaim none
    (by intro cl hcl; simp at hcl) (by decide)

/-! ## Partial-patch semantics of the update mutation (C3) -/

/-- Patch semantics the fields of the speculative update obey in the code: a
field provided with a non-null value takes that value, while a field that is
absent or provided as the null sentinel keeps the cached value. -/
def PatchKeepsNull (x : Option (Option String)) (oldv newv : Option String) :
    Prop :=
  (∀ s, x = some (some s) → newv = some s) ∧
  ((x = none ∨ x = some none) → newv = oldv)

theorem nullishOpt_patchKeepsNull (x : Option (Option String))
    (oldv : Option String) : PatchKeepsNull x oldv (nullishOpt x oldv) := by
  constructor
  · intro s h
    rw [h]
    rfl
  · rintro (rfl | rfl) <;> rfl

/-- Concrete cached detail object used by the C3 counterexample. -/
def demoDetailClaim : ClaimWithItems :=
  { id := "clm-1"
    claimNumber := "CLM-1"
    description := none
    amount := none
    status := ClaimStatus.PENDING
    customer := some "ACME"
    adjustorName := some "Joe"
    adjustorPhone := none
    adjustorEmail := none
    claimantName := some "Ann"
    claimantPhone := none
    claimantEmail := none
    claimantAddress := none
    createdAt := 1
    updatedAt := 1
    claimantId := "user-1"
    claimant := { id := "user-1", name := some "Ann", email := "a@b.c" }
    items := [] }

/-- Patch that provides only `customer`, as the null sentinel (clear field). -/
def demoNullPatch : UpdateClaimInput :=
  { id := "clm-1"
    claimNumber := none
    customer := some none
    status := none
    adjustorName := none
    adjustorPhone := none
    adjustorEmail := none
    claimantName := none
    claimantPhone := none
    claimantEmail := none
    claimantAddress := none }

/-- C3 counterexample: a field provided as the null sentinel does not take the
provided value in the cached claim — the nullish coalescing of the
speculative transform treats null like an absent field, so the cached
`customer` stays `"ACME"` instead of being cleared. -/
theorem update_null_sentinel_cex :
    demoNullPatch.customer = some none ∧
    (updateTransform demoNullPatch demoDetailClaim).customer = some "ACME" ∧
    updateTransform demoNullPatch demoDetailClaim = demoDetailClaim :=
  ⟨rfl, rfl, rfl⟩

/-- C3 amended: the speculative transform applies only fields provided with a
non-null value; a field that is absent, and equally a field provided as the
null sentinel, retains its previously cached value; fields outside the
patchable set are always retained. -/
theorem update_partial_patch_amended (d : UpdateClaimInput)
    (old : ClaimWithItems) :
    (∀ s, d.claimNumber = some s → (updateTransform d old).claimNumber = s) ∧
    (d.claimNumber = none →
      (updateTransform d old).claimNumber = old.claimNumber) ∧
    (∀ st, d.status = some st → (updateTransform d old).status = st) ∧
    (d.status = none → (updateTransform d old).status = old.status) ∧
    PatchKeepsNull d.customer old.customer (updateTransform d old).customer ∧
    PatchKeepsNull d.adjustorName old.adjustorName
      (updateTransform d old).adjustorName ∧
    PatchKeepsNull d.adjustorPhone old.adjustorPhone
      (updateTransform d old).adjustorPhone ∧
    PatchKeepsNull d.adjustorEmail old.adjustorEmail
      (updateTransform d old).adjustorEmail ∧
    PatchKeepsNull d.claimantName old.claimantName
      (updateTransform d old).claimantName ∧
    PatchKeepsNull d.claimantPhone old.claimantPhone
      (updateTransform d old).claimantPhone ∧
    PatchKeepsNull d.claimantEmail old.claimantEmail
      (updateTransform d old).claimantEmail ∧
    PatchKeepsNull d.claimantAddress old.claimantAddress
      (updateTransform d old).claimantAddress ∧
    (updateTransform d old).id = old.id ∧
    (updateTransform d old).items = old.items ∧
    (updateTransform d old).description = old.description ∧
    (updateTransform d old).amount = old.amount ∧
    (updateTransform d old).createdAt = old.createdAt ∧
    (updateTransform d old).updatedAt = old.updatedAt ∧
    (updateTransform d old).claimantId = old.claimantId ∧
    (updateTransform d old).claimant = old.claimant := by
  refine ⟨?_, ?_, ?_, ?_, ?_, ?_, ?_, ?_, ?_, ?_, ?_, ?_,
    rfl, rfl, rfl, rfl, rfl, rfl, rfl, rfl⟩
  · intro s h
    show d.claimNumber.getD old.claimNumber = s
    rw [h]
    rfl
  · intro h
    show d.claimNumber.getD old.claimNumber = old.claimNumber
    rw [h]
    rfl
  · intro st h
    show d.status.getD old.status = st
    rw [h]
    rfl
  · intro h
    show d.status.getD old.status = old.status
    rw [h]
    rfl
  all_goals exact nullishOpt_patchKeepsNull _ _

/-- Patch that provides `customer` with a real value. -/
def demoValuePatch : UpdateClaimInput :=
  { demoNullPatch with customer := some (some "NewCo") }

/-- Witness for the amended partial-patch theorem at concrete inputs. -/
theorem update_partial_patch_witness :
    (updateTransform demoValuePatch demoDetailClaim).customer = some "NewCo" :=
  (update_partial_patch_amended demoValuePatch demoDetailClaim).2.2.2.2.1.1
    "NewCo" rfl

/-! ## Stale reconciliation (C8) -/

/-- Second create input, used as mutation B in the stale-reconciliation
scenario. -/
def demoCreateInputB : CreateClaimInput :=
  { demoCreateInput with claimNumber := "CLM-2", customer := some "Globex" }

/-- C8 counterexample: with mutation A (create at time 0) and mutation B
(create at time 1) both touching the claims-list key, and A's response
arriving after B's speculative write, A's reconciliation is applied — the
cache changes and contains A's server claim — rather than being discarded,
so the final value does not reflect B alone. -/
theorem stale_reconciliation_cex :
    (createOnSuccess demoServerClaim
        (createOnMutate demoCreateInput 0 (some [])).1
        (createOnMutate demoCreateInputB 1
          (createOnMutate demoCreateInput 0 (some [])).2).2) ≠
      (createOnMutate demoCreateInputB 1
        (createOnMutate demoCreateInput 0 (some [])).2).2 ∧
    demoServerClaim ∈
      (createOnSuccess demoServerClaim
        (createOnMutate demoCreateInput 0 (some [])).1
        (createOnMutate demoCreateInputB 1
          (createOnMutate demoCreateInput 0 (some [])).2).2).getD [] := by
  decide

/-- C8 amended: the earlier mutation's reconciliation is not discarded, but it
is a targeted replacement of that mutation's own temporary entry, so the later
mutation's still-in-flight speculative entry survives it: after A's
reconciliation the list holds B's temporary entry followed by A's committed
server claim over the original entries. -/
theorem stale_reconciliation_amended (inputA inputB : CreateClaimInput)
    (nowA nowB : Nat) (start : List ClaimWithCount)
    (serverClaim : ClaimWithCount)
    (hAB : tempIdFor nowB ≠ tempIdFor nowA)
    (hfresh : ∀ cl ∈ start, cl.id ≠ tempIdFor nowA) :
    createOnSuccess serverClaim
        (createOnMutate inputA nowA (some start)).1
        (createOnMutate inputB nowB
          (createOnMutate inputA nowA (some start)).2).2 =
      some (tempClaimFor inputB nowB :: serverClaim :: start) := by
  have h0 : createOnSuccess serverClaim
      (createOnMutate inputA nowA (some start)).1
      (createOnMutate inputB nowB
        (createOnMutate inputA nowA (some start)).2).2 =
      some ((tempClaimFor inputB nowB :: tempClaimFor inputA nowA :: start).map
        fun cl => if cl.id = tempIdFor nowA then serverClaim else cl) := rfl
  rw [h0, List.map_cons, List.map_cons,
    if_neg (show (tempClaimFor inputB nowB).id ≠ tempIdFor nowA from hAB),
    if_pos (show (tempClaimFor inputA nowA).id = tempIdFor nowA from rfl),
    map_promote_fresh serverClaim (tempIdFor nowA) start hfresh]

/-- Witness for the amended stale-reconciliation theorem at concrete inputs. -/
theorem stale_reconciliation_amended_witness :
    createOnSuccess demoServerClaim
        (createOnMutate demoCreateInput 0 (some [])).1
        (createOnMutate demoCreateInputB 1
          (createOnMutate demoCreateInput 0 (some [])).2).2 =
      some [tempClaimFor demoCreateInputB 1, demoServerClaim] :=
  stale_reconciliation_amended demoCreateInput demoCreateInputB 0 1 []
    demoServerClaim (by decide) (by intro cl hcl; simp at hcl)

/-! ## Share-link server routes and client hooks (C5, C6, C9)

Server state for one claim is the pair of the claim row's existence and its
optional `ShareLink` row (at most one per claim: the schema has a unique
index on `ShareLink.claimId`).  Prisma-generated identifier and token of a
freshly created link are passed in as an explicit argument. -/

/-- ShareLink record, from the Prisma `ShareLink` table. -/
structure ShareLink where
  id : String
  token : String
  claimId : String
  createdAt : Nat
deriving DecidableEq, Repr

/-- Server-side state of one claim as far as sharing is concerned. -/
structure ShareState where
  claimExists : Bool
  link : Option ShareLink
deriving DecidableEq, Repr

/-- HTTP-level result of a share route: status code plus optional link body. -/
structure ShareResp where
  status : Nat
  body : Option ShareLink
deriving DecidableEq, Repr

/-- POST share route (create or return existing), taken as one atomic step:
404 when the claim is missing, the existing link with 200 when one exists,
otherwise a fresh link is inserted and returned with 201. -/
def sharePostRoute (newLink : ShareLink) (st : ShareState) :
    ShareResp × ShareState :=
  if st.claimExists = false then (⟨404, none⟩, st)
  else
    match st.link with
    | some l => (⟨200, some l⟩, st)
    | none => (⟨201, some newLink⟩, { st with link := some newLink })

/-- GET share route: the link with 200 when present, else 404. -/
def shareGetRoute (st : ShareState) : ShareResp :=
  match st.link with
  | none => ⟨404, none⟩
  | some l => ⟨200, some l⟩

/-- DELETE share route (revoke): 404 when absent, else delete and 200. -/
def shareRevokeRoute (st : ShareState) : ShareResp × ShareState :=
  match st.link with
  | none => (⟨404, none⟩, st)
  | some _ => (⟨200, none⟩, { st with link := none })

/-- PDF export route's effect on the share state: it fetches the share link
and creates one when the claim exists but no link does, so the share URL can
be embedded in the document. -/
def pdfExportRoute (newLink : ShareLink) (st : ShareState) : ShareState :=
  if st.claimExists = false then st
  else
    match st.link with
    | some _ => st
    | none => { st with link := some newLink }

/-- DELETE claim route's effect on the share state: deleting the claim
cascades to its share link (`ON DELETE CASCADE` in the schema). -/
def claimDeleteRoute (st : ShareState) : ShareState :=
  if st.claimExists then { claimExists := false, link := none } else st

/-- File carried by a multipart upload request. -/
structure UploadFile where
  name : String
  mimeType : String
  size : Nat
deriving DecidableEq, Repr

/-- Server operations of this repository that could conceivably touch a
claim's share state. -/
inductive ServerOp where
  | claimGet
  | claimPatch
  | claimDelete
  | sharePost (newLink : ShareLink)
  | shareGet
  | shareRevoke
  | shareTokenGet (token : String)
  | pdfExport (newLink : ShareLink)
  | attachmentsPost (itemFound : Bool) (file : Option UploadFile)
  | attachmentsGet
deriving DecidableEq, Repr

/-- State transition of each server operation on a claim's share state.
Routes that only read, or that write other tables (claim fields, attachment
rows), leave the share state unchanged. -/
def applyOp : ServerOp → ShareState → ShareState
  | ServerOp.claimGet, st => st
  | ServerOp.claimPatch, st => st
  | ServerOp.claimDelete, st => claimDeleteRoute st
  | ServerOp.sharePost l, st => (sharePostRoute l st).2
  | ServerOp.shareGet, st => st
  | ServerOp.shareRevoke, st => (shareRevokeRoute st).2
  | ServerOp.shareTokenGet _, st => st
  | ServerOp.pdfExport l, st => pdfExportRoute l st
  | ServerOp.attachmentsPost _ _, st => st
  | ServerOp.attachmentsGet, st => st

/-- Discriminator for share-link create requests. -/
def isShareCreate : ServerOp → Bool
  | ServerOp.sharePost _ => true
  | _ => false

/-- Concrete share links used by witnesses and counterexamples. -/
def demoLink : ShareLink := ⟨"sl-1", "tok-1", "clm-1", 0⟩

/-- Second concrete share link, the one a racing loser tried to insert. -/
def demoLinkB : ShareLink := ⟨"sl-2", "tok-2", "clm-1", 1⟩

/-- C6 counterexample: exporting the claim as a PDF while no ShareLink exists
brings a ShareLink into existence, although the operation is not a share-link
create request — refuting that only share requests create links. -/
theorem shareLink_lifecycle_cex :
    (applyOp (ServerOp.pdfExport demoLink) ⟨true, none⟩).link = some demoLink ∧
    isShareCreate (ServerOp.pdfExport demoLink) = false := by
  decide

/-- C6 amended: in every reachable server state a ShareLink is created only by
a share-link create request or by the PDF export route (which ensures a link
exists to embed the share URL in the document), and deleted only by revoke or
by cascade from claim deletion; absence of a ShareLink still implies no share
token is outstanding. -/
theorem shareLink_lifecycle_amended (op : ServerOp) (st : ShareState) :
    (st.link = none → (applyOp op st).link ≠ none →
      (∃ l, op = ServerOp.sharePost l ∨ op = ServerOp.pdfExport l)) ∧
    (st.link ≠ none → (applyOp op st).link = none →
      op = ServerOp.shareRevoke ∨ op = ServerOp.claimDelete) := by
  obtain ⟨ce, lnk⟩ := st
  cases op <;>
    cases ce <;>
      cases lnk <;>
        simp [applyOp, claimDeleteRoute, sharePostRoute, shareRevokeRoute,
          pdfExportRoute]

/-- Witness for the amended lifecycle theorem at a concrete transition. -/
theorem shareLink_lifecycle_witness :
    ∃ l, ServerOp.sharePost demoLink = ServerOp.sharePost l ∨
      ServerOp.sharePost demoLink = ServerOp.pdfExport l :=
  (shareLink_lifecycle_amended (ServerOp.sharePost demoLink)
      ⟨true, none⟩).1 rfl (by decide)

/-! ## Share-link create idempotence (C5)

The POST route is not atomic in the source: it awaits a claim read, a link
read, and only then the insert.  Two racing requests are modelled as an
interleaving of a read phase (both prisma `findUnique` calls) and an act
phase (respond from the read, or attempt the insert, which fails against the
unique `claimId` index when a row appeared meanwhile and the catch block
answers 500). -/

/-- Read phase of the POST share route: claim existence and current link. -/
def postReadPhase (st : ShareState) : Bool × Option ShareLink :=
  (st.claimExists, st.link)

/-- Act phase of the POST share route, acting on what the read phase saw. -/
def postActPhase (claimFound : Bool) (sawLink : Option ShareLink)
    (newLink : ShareLink) (st : ShareState) : ShareResp × ShareState :=
  if claimFound = false then (⟨404, none⟩, st)
  else
    match sawLink with
    | some l => (⟨200, some l⟩, st)
    | none =>
        match st.link with
        | none => (⟨201, some newLink⟩, { st with link := some newLink })
        | some _ => (⟨500, none⟩, st)

/-- Client cache write of `useCreateShareLink.onSuccess`: the share-link cache
entry becomes exactly the server-returned link. -/
def shareLinkCacheOnCreate (returned : ShareLink) : Option (Option ShareLink) :=
  some (some returned)

/-- C5 counterexample: two racing create calls both pass the existence check;
the first inserts and resolves 201 with its token, the second's insert hits
the unique `claimId` index and that call resolves 500 with no link — the two
calls do not both resolve to the same token (exactly one record does remain).
-/
theorem shareLink_idempotence_cex :
    (postActPhase (postReadPhase ⟨true, none⟩).1 (postReadPhase ⟨true, none⟩).2
        demoLink ⟨true, none⟩).1 = ⟨201, some demoLink⟩ ∧
    (postActPhase (postReadPhase ⟨true, none⟩).1 (postReadPhase ⟨true, none⟩).2
        demoLinkB
        (postActPhase (postReadPhase ⟨true, none⟩).1
          (postReadPhase ⟨true, none⟩).2 demoLink ⟨true, none⟩).2).1 =
      ⟨500, none⟩ ∧
    (postActPhase (postReadPhase ⟨true, none⟩).1 (postReadPhase ⟨true, none⟩).2
        demoLinkB
        (postActPhase (postReadPhase ⟨true, none⟩).1
          (postReadPhase ⟨true, none⟩).2 demoLink ⟨true, none⟩).2).2.link =
      some demoLink := by
  decide

/-- C5 amended: sequential create is idempotent — when the claim exists and no
link does, the first call inserts and returns a link, the second call returns
that same existing link with 200 and the state still holds exactly that one
record; and the client cache stores exactly the server-returned link.  Under
a race the loser fails with 500 instead of resolving to the same token (see
the counterexample), still leaving exactly one record. -/
theorem shareLink_idempotence_amended (l1 l2 : ShareLink) (st : ShareState)
    (hclaim : st.claimExists = true) (hnone : st.link = none) :
    (sharePostRoute l1 st).1.body = some l1 ∧
    (sharePostRoute l2 (sharePostRoute l1 st).2).1 = ⟨200, some l1⟩ ∧
    (sharePostRoute l2 (sharePostRoute l1 st).2).2.link = some l1 ∧
    shareLinkCacheOnCreate l1 = some (some l1) := by
  obtain ⟨ce, lnk⟩ := st
  simp only at hclaim hnone
  subst hclaim
  subst hnone
  refine ⟨rfl, rfl, rfl, rfl⟩

/-- Witness for the amended idempotence theorem at a concrete state. -/
theorem shareLink_idempotence_witness :
    (sharePostRoute demoLink ⟨true, none⟩).1.body = some demoLink ∧
    (sharePostRoute demoLinkB (sharePostRoute demoLink ⟨true, none⟩).2).1 =
      ⟨200, some demoLink⟩ ∧
    (sharePostRoute demoLinkB
        (sharePostRoute demoLink ⟨true, none⟩).2).2.link = some demoLink ∧
    shareLinkCacheOnCreate demoLink = some (some demoLink) :=
  shareLink_idempotence_amended demoLink demoLinkB ⟨true, none⟩ rfl rfl

/-! ## Share-link fetch and the 404-as-null contract (C9) -/

/-- Query function of `useShareLink`: a 404 response resolves to the explicit
no-link value `null`, any other non-2xx response is thrown as an error, and a
2xx response resolves to its body. -/
def useShareLinkQueryFn (status : Nat) (body : Option ShareLink) :
    Except String (Option ShareLink) :=
  if status = 404 then Except.ok none
  else if 200 ≤ status ∧ status ≤ 299 then Except.ok body
  else Except.error "Failed to fetch share link"

/-- C9: fetching the share link of a claim with none yields 404 and the client
query resolves it to the explicit null value; a claim with a link resolves to
that link; any other non-success status surfaces as an error. -/
theorem shareLink_fetch_404_as_null (st : ShareState) (status : Nat)
    (body : Option ShareLink) (hnot404 : status ≠ 404)
    (hnotOk : ¬(200 ≤ status ∧ status ≤ 299)) :
    useShareLinkQueryFn (shareGetRoute st).status (shareGetRoute st).body =
      Except.ok st.link ∧
    useShareLinkQueryFn status body =
      Except.error "Failed to fetch share link" := by
  constructor
  · obtain ⟨ce, lnk⟩ := st
    cases lnk <;> simp [shareGetRoute, useShareLinkQueryFn]
  · simp [useShareLinkQueryFn, hnot404, hnotOk]

/-- Witness for the 404-as-null theorem: a claim without a link resolves to
null and a 500 response surfaces as an error. -/
theorem shareLink_fetch_404_as_null_witness :
    useShareLinkQueryFn (shareGetRoute ⟨true, none⟩).status
        (shareGetRoute ⟨true, none⟩).body = Except.ok none ∧
    useShareLinkQueryFn 500 none =
      Except.error "Failed to fetch share link" :=
  shareLink_fetch_404_as_null ⟨true, none⟩ 500 none (by decide) (by decide)

/-! ## Attachment upload route (C10) -/

/-- Maximum accepted upload size, `100 * 1024 * 1024` bytes. -/
def MAX_FILE_SIZE : Nat := 100 * 1024 * 1024

/-- Side effects the upload route can perform after its checks. -/
inductive UploadEffect where
  | r2Upload
  | r2ThumbUpload
  | dbCreateAttachment
deriving DecidableEq, Repr

/-- POST attachments route: 404 when the item does not exist under the claim,
400 when no file is provided, 400 when the file exceeds the size limit — each
before any side effect — otherwise upload to object storage (plus a thumbnail
for images) and create the attachment row, answering 201. -/
def attachmentsPostRoute (itemFound : Bool) (file : Option UploadFile) :
    Nat × List UploadEffect :=
  if itemFound = false then (404, [])
  else
    match file with
    | none => (400, [])
    | some f =>
        if f.size > MAX_FILE_SIZE then (400, [])
        else
          (201, UploadEffect.r2Upload ::
            (if leadsWith "image/".data f.mimeType.data then
              [UploadEffect.r2ThumbUpload]
            else []) ++ [UploadEffect.dbCreateAttachment])

/-- C10: each precondition failure of the upload route returns its status with
no side effect performed — 404 for a missing item, 400 for a missing file,
400 for a file strictly larger than 100 MB — while a file of exactly
100 MB passes the size check and reaches the storage upload and the
database write. -/
theorem attachments_upload_preconditions (f : UploadFile)
    (file : Option UploadFile) (hbig : MAX_FILE_SIZE < f.size)
    (g : UploadFile) (hexact : g.size = MAX_FILE_SIZE) :
    attachmentsPostRoute false file = (404, []) ∧
    attachmentsPostRoute true none = (400, []) ∧
    attachmentsPostRoute true (some f) = (400, []) ∧
    ((attachmentsPostRoute true (some g)).1 = 201 ∧
      UploadEffect.r2Upload ∈ (attachmentsPostRoute true (some g)).2 ∧
      UploadEffect.dbCreateAttachment ∈
        (attachmentsPostRoute true (some g)).2) := by
  refine ⟨rfl, rfl, ?_, ?_⟩
  · simp [attachmentsPostRoute, hbig]
  · have hnot : ¬ g.size > MAX_FILE_SIZE := by
      rw [hexact]
      exact lt_irrefl _
    refine ⟨?_, ?_, ?_⟩ <;>
      simp [attachmentsPostRoute, hnot]

/-- Concrete oversized and exactly-at-limit files. -/
def demoBigFile : UploadFile :=
  ⟨"big.mov", "video/quicktime", 100 * 1024 * 1024 + 1⟩

/-- Concrete file of exactly 100 MB. -/
def demoLimitFile : UploadFile := ⟨"ok.bin", "octet", 100 * 1024 * 1024⟩

/-- Witness for the upload-precondition theorem at concrete files. -/
theorem attachments_upload_preconditions_witness :
    attachmentsPostRoute false (some demoBigFile) = (404, []) ∧
    attachmentsPostRoute true none = (400, []) ∧
    attachmentsPostRoute true (some demoBigFile) = (400, []) ∧
    ((attachmentsPostRoute true (some demoLimitFile)).1 = 201 ∧
      UploadEffect.r2Upload ∈
        (attachmentsPostRoute true (some demoLimitFile)).2 ∧
      UploadEffect.dbCreateAttachment ∈
        (attachmentsPostRoute true (some demoLimitFile)).2) :=
  attachments_upload_preconditions demoBigFile (some demoBigFile)
    (by decide) demoLimitFile (by decide)

/-! ## Item reorder (C7) -/

/-- One entry of the reorder payload, an `(id, order)` pair. -/
structure ReorderEntry where
  id : String
  order : Nat
deriving DecidableEq, Repr

/-- Payload of the reorder mutation: the claim and the full new sequence. -/
structure ReorderRequest where
  claimId : String
  items : List ReorderEntry
deriving DecidableEq, Repr

/-- Embeds `newOrder.map((item, index) => ({id: item.id, order: index}))`
starting at a given index. -/
def assignOrders : Nat → List ItemWithAttachments → List ReorderEntry
  | _, [] => []
  | k, it :: rest => ⟨it.id, k⟩ :: assignOrders (k + 1) rest

/-- The handleReorder handler of the claim detail page: build the full payload
of `(id, index)` pairs, return before the network call when it is empty (so
no cache mutation is attempted), otherwise issue one mutation carrying the
whole new sequence. -/
def handleReorder (claimId : String) (newOrder : List ItemWithAttachments) :
    Option ReorderRequest :=
  let reorderedItems := assignOrders 0 newOrder
  if reorderedItems.length = 0 then none
  else some ⟨claimId, reorderedItems⟩

theorem assignOrders_length (k : Nat) (l : List ItemWithAttachments) :
    (assignOrders k l).length = l.length := by
  induction l generalizing k with
  | nil => rfl
  | cons it rest ih => simp [assignOrders, ih]

theorem assignOrders_map_order (k : Nat) (l : List ItemWithAttachments) :
    (assignOrders k l).map (fun e => e.order) = List.range' k l.length := by
  induction l generalizing k with
  | nil => rfl
  | cons it rest ih => simp [assignOrders, ih, List.range'_succ]

theorem assignOrders_map_id (k : Nat) (l : List ItemWithAttachments) :
    (assignOrders k l).map (fun e => e.id) = l.map (fun it => it.id) := by
  induction l generalizing k with
  | nil => rfl
  | cons it rest ih => simp [assignOrders, ih]

/-- C7: for a non-empty item sequence the reorder handler issues exactly one
mutation whose payload assigns each item its index in the new display
sequence — the order values are exactly `0 .. n-1` over the items in their
new order — and for an empty sequence it returns before the network call so
no mutation is issued and no cache is touched. -/
theorem handleReorder_spec (cid : String) (items : List ItemWithAttachments) :
    (items = [] → handleReorder cid items = none) ∧
    (items ≠ [] → ∃ req, handleReorder cid items = some req ∧
      req.claimId = cid ∧
      req.items.map (fun e => e.order) = List.range items.length ∧
      req.items.map (fun e => e.id) = items.map (fun it => it.id)) := by
  constructor
  · rintro rfl
    rfl
  · intro hne
    refine ⟨⟨cid, assignOrders 0 items⟩, ?_, rfl, ?_, ?_⟩
    · rw [handleReorder]
      rw [if_neg]
      rw [assignOrders_length]
      simpa using hne
    · rw [assignOrders_map_order, List.range_eq_range']
    · exact assignOrders_map_id 0 items

/-- Concrete item used by the reorder witness. -/
def demoItem : ItemWithAttachments :=
  { id := "item-1"
    title := "Sofa"
    description := none
    order := 3
    createdAt := 0
    updatedAt := 0
    claimId := "clm-1"
    attachments := [] }

/-- Witness for the reorder theorem at a concrete one-item sequence. -/
theorem handleReorder_spec_witness :
    ∃ req, handleReorder "clm-1" [demoItem] = some req ∧
      req.claimId = "clm-1" ∧
      req.items.map (fun e => e.order) = List.range 1 ∧
      req.items.map (fun e => e.id) = [demoItem].map (fun it => it.id) :=
  (handleReorder_spec "clm-1" [demoItem]).2 (by simp)

end ClaimsApp
